import Mathlib

/-!
Shallow embedding of the zd-monitor client SDK's event intake and
reliable-delivery pipeline, together with theorems checking its
natural-language specification.

The embedding follows the TypeScript source:
* the priority-queue `Transport` (high/medium/low queues, overflow
  protection, retry queue with exponential backoff),
* the `Monitor` coordinator (config merge, breadcrumbs, `safeExecute`
  failure isolation, `report` enrichment, per-session sampling),
* the `StorageManager` durable queue store over `localStorage`.

Machine integers are modelled as `Nat` (the quantities involved are
counts, lengths and epoch-millisecond timestamps, all non-negative in
the source).  Asynchronous promise resolution is modelled by explicit
completion functions parameterised by a network oracle; timer callbacks
are modelled as explicit step functions taking the current time.
Exceptions are modelled with `Except`; `try`/`catch` blocks become
pattern matches on the `Except` value.  Ghost fields (`sentBatches`,
`forcedFlushes`, `storageClears`, `beaconed`, `logs`) record externally
observable effects without altering the control flow being modelled.
-/

namespace ZdMonitor

/-- Delivery priority of a report (string enum `ReportPriority` in the
source: "high" | "medium" | "low"). -/
inductive ReportPriority where
  | high
  | medium
  | low
deriving DecidableEq, Repr

/-- A breadcrumb trail entry (timestamp, category, message; the optional
structured detail is opaque to the pipeline and folded into `message`). -/
structure Breadcrumb where
  timestamp : Nat
  category : String
  message : String
deriving DecidableEq, Repr

/-- A full report record as assembled by `Monitor.report`: the public
context stamps plus the producer-supplied category (`type`), optional
explicit priority, and an opaque category-specific payload. -/
structure ReportData where
  appId : String
  timestamp : Nat
  sessionId : String
  userId : String
  url : String
  userAgent : String
  connectionType : String
  breadcrumbs : List Breadcrumb
  type : String
  priority : Option ReportPriority
  payload : String
deriving DecidableEq, Repr

/-- The producer-supplied part of a report (the `Omit<ReportData, ...>`
argument of `Monitor.report`): category, optional priority, payload. -/
structure ReportInput where
  type : String
  priority : Option ReportPriority
  payload : String
deriving DecidableEq, Repr

/-- Transport configuration as supplied by the caller (all fields but
`url` optional, mirrored from `TransportOptions`). -/
structure TransportOptionsInput where
  url : String
  timeout : Option Nat := none
  withCredentials : Option Bool := none
  reportInterval : Option Nat := none
  batchSize : Option Nat := none
  maxQueueSize : Option Nat := none
  enableImmediateReport : Option Bool := none
  retryCount : Option Nat := none
  retryInterval : Option Nat := none
deriving DecidableEq, Repr

/-- Fully defaulted transport configuration (`Required<TransportOptions>`). -/
structure TransportOptions where
  url : String
  timeout : Nat
  withCredentials : Bool
  reportInterval : Nat
  batchSize : Nat
  maxQueueSize : Nat
  enableImmediateReport : Bool
  retryCount : Nat
  retryInterval : Nat
deriving DecidableEq, Repr

/-- Option merging performed by the `Transport` constructor: each missing
field is replaced by its documented default (`??` in the source). -/
def mergeTransportOptions (o : TransportOptionsInput) : TransportOptions :=
  { url := o.url
    timeout := o.timeout.getD 5000
    withCredentials := o.withCredentials.getD false
    reportInterval := o.reportInterval.getD 60000
    batchSize := o.batchSize.getD 10
    maxQueueSize := o.maxQueueSize.getD 100
    enableImmediateReport := o.enableImmediateReport.getD true
    retryCount := o.retryCount.getD 3
    retryInterval := o.retryInterval.getD 1000 }

/-- A retry record: failed batch, attempt count, next-eligible timestamp. -/
structure RetryItem where
  data : List ReportData
  retryCount : Nat
  nextRetryTime : Nat
deriving DecidableEq, Repr

/-- Mutable state of the priority-queue `Transport`.  The queue, retry
and pending fields mirror the class fields; `sentBatches`, `beaconed`,
`forcedFlushes` and `storageClears` are ghost observations recording,
respectively, every batch handed to `sendBatch` (with its priority),
every payload handed to `trySendBeacon`, every overflow-triggered flush
cycle, and every `storageManager.clear()` call. -/
structure TransportState where
  highPriorityQueue : List ReportData
  mediumPriorityQueue : List ReportData
  lowPriorityQueue : List ReportData
  isDestroyed : Bool
  pendingRequests : Nat
  retryQueue : List RetryItem
  sentBatches : List (List ReportData × ReportPriority)
  beaconed : List (List ReportData)
  forcedFlushes : Nat
  storageClears : Nat
deriving DecidableEq, Repr

/-- The state of a freshly constructed transport with nothing restored
from storage. -/
def TransportState.initial : TransportState :=
  { highPriorityQueue := []
    mediumPriorityQueue := []
    lowPriorityQueue := []
    isDestroyed := false
    pendingRequests := 0
    retryQueue := []
    sentBatches := []
    beaconed := []
    forcedFlushes := 0
    storageClears := 0 }

/-- `Transport.getDefaultPriority`: error → high, performance → medium,
behavior → low, anything else → medium. -/
def getDefaultPriority (dataType : String) : ReportPriority :=
  match dataType with
  | "error" => .high
  | "performance" => .medium
  | "behavior" => .low
  | _ => .medium

/-- Effective priority of a report: the explicit `priority` field when
present, otherwise the category default
(`data.priority || this.getDefaultPriority(data.type)`). -/
def effectivePriority (d : ReportData) : ReportPriority :=
  d.priority.getD (getDefaultPriority d.type)

/-- `Transport.addToQueue`: append to the queue matching the priority. -/
def addToQueue (st : TransportState) (d : ReportData) :
    ReportPriority → TransportState
  | .high => { st with highPriorityQueue := st.highPriorityQueue ++ [d] }
  | .medium => { st with mediumPriorityQueue := st.mediumPriorityQueue ++ [d] }
  | .low => { st with lowPriorityQueue := st.lowPriorityQueue ++ [d] }

/-- Synchronous part of `Transport.sendBatch`: guard on `isDestroyed`,
increment `pendingRequests`, and hand the serialized batch to the
network (recorded in the ghost `sentBatches`).  The asynchronous
promise continuation is modelled separately by `completeBatch`. -/
def sendBatchSync (st : TransportState) (batch : List ReportData)
    (p : ReportPriority) : TransportState :=
  if st.isDestroyed then st
  else
    { st with pendingRequests := st.pendingRequests + 1
              sentBatches := st.sentBatches ++ [(batch, p)] }

/-- Total resident count across the three priority queues. -/
def totalQueueSize (st : TransportState) : Nat :=
  st.highPriorityQueue.length + st.mediumPriorityQueue.length +
    st.lowPriorityQueue.length

/-- `Transport.processQueuedData` (one batch-timer tick, also invoked by
`flush()` and by queue overflow): skip when destroyed or when more than
3 requests are in flight; otherwise drain up to `batchSize` events from
the medium queue, then up to `batchSize` from the low queue, sending
each drained group as one batch; finally clear the persisted snapshot
when any queue held data. -/
def processQueuedData (opts : TransportOptions) (st : TransportState) :
    TransportState :=
  if st.isDestroyed ∨ 3 < st.pendingRequests then st
  else
    let hasData := st.highPriorityQueue.length > 0 ∨
      st.mediumPriorityQueue.length > 0 ∨ st.lowPriorityQueue.length > 0
    let st1 :=
      if st.mediumPriorityQueue.length > 0 then
        sendBatchSync
          { st with mediumPriorityQueue := st.mediumPriorityQueue.drop opts.batchSize }
          (st.mediumPriorityQueue.take opts.batchSize) .medium
      else st
    let st2 :=
      if st1.lowPriorityQueue.length > 0 then
        sendBatchSync
          { st1 with lowPriorityQueue := st1.lowPriorityQueue.drop opts.batchSize }
          (st1.lowPriorityQueue.take opts.batchSize) .low
      else st1
    if hasData then { st2 with storageClears := st2.storageClears + 1 } else st2

/-- `Transport.checkQueueOverflow`: when the total resident count across
all three queues reaches `maxQueueSize`, force a flush cycle
(`processQueuedData`).  The ghost `forcedFlushes` counts these
overflow-triggered cycles. -/
def checkQueueOverflow (opts : TransportOptions) (st : TransportState) :
    TransportState :=
  if opts.maxQueueSize ≤ totalQueueSize st then
    processQueuedData opts { st with forcedFlushes := st.forcedFlushes + 1 }
  else st

/-- `Transport.sendImmediately`: a high-priority one-shot batch. -/
def sendImmediately (st : TransportState) (ds : List ReportData) :
    TransportState :=
  sendBatchSync st ds .high

/-- `Transport.send`: no-op when destroyed; a high-priority event with
immediate reporting enabled is transmitted at once as a one-element
batch; any other event is appended to its priority queue and the
overflow check runs. -/
def Transport.send (opts : TransportOptions) (st : TransportState)
    (d : ReportData) : TransportState :=
  if st.isDestroyed then st
  else
    let p := effectivePriority d
    if p = .high ∧ opts.enableImmediateReport then
      sendImmediately st [d]
    else
      checkQueueOverflow opts (addToQueue st d p)

/-- `Transport.flushAllQueues` (page-hide/unload/destroy path): when any
queue holds data, send everything via the beacon primitive and empty all
three queues. -/
def flushAllQueues (st : TransportState) : TransportState :=
  let allData := st.highPriorityQueue ++ st.mediumPriorityQueue ++
    st.lowPriorityQueue
  if allData.length > 0 then
    { st with highPriorityQueue := []
              mediumPriorityQueue := []
              lowPriorityQueue := []
              beaconed := st.beaconed ++ [allData] }
  else st

/-- `Transport.getQueueStatus`: read-only resident counts. -/
def getQueueStatus (st : TransportState) :
    Nat × Nat × Nat × Nat × Nat :=
  (st.highPriorityQueue.length, st.mediumPriorityQueue.length,
    st.lowPriorityQueue.length, st.retryQueue.length, st.pendingRequests)

/-- Outcome of a `trySendBeacon` call: the API may be unsupported
(`null` is returned and the caller can fall through), or report
acceptance, or report failure (a rejected promise). -/
inductive BeaconResult where
  | unsupported
  | accepted
  | rejected
deriving DecidableEq, Repr

/-- Environment oracle for one network attempt: beacon outcome, whether
`fetch` succeeds, whether the fallback `xhr.open`/setup throws
synchronously, and whether the fired XHR request eventually fails on
the network.  The last field is deliberately invisible to the promise
chain: `sendXHR` installs empty `onerror`/`ontimeout` handlers and
swallows `send` exceptions. -/
structure NetworkOracle where
  beacon : BeaconResult
  fetchOk : Bool
  xhrOpenThrows : Bool
  xhrNetworkFails : Bool
deriving DecidableEq, Repr

/-- Whether the promise chain built by `Transport.sendBatch` resolves.
High priority: `trySendBeacon(batch) || sendFetch(data)` — a `null`
(unsupported) beacon falls through to `fetch`, while a rejected beacon
promise is truthy and short-circuits, rejecting the chain.  Other
priorities: `sendFetch(data).catch(() => sendXHR(data))` — the catch
handler returns `undefined`, so the chain resolves unless `sendXHR`
itself throws synchronously; an XHR that later fails on the network is
never observed. -/
def sendChainResolves (p : ReportPriority) (o : NetworkOracle) : Bool :=
  if p = .high then
    match o.beacon with
    | .unsupported => o.fetchOk
    | .accepted => true
    | .rejected => false
  else
    o.fetchOk || !o.xhrOpenThrows

/-- The retry record created by `Transport.addToRetryQueue` at time
`now`: attempt count 0, next retry one base interval later. -/
def mkRetryItem (opts : TransportOptions) (now : Nat)
    (data : List ReportData) : RetryItem :=
  { data := data, retryCount := 0
    nextRetryTime := now + opts.retryInterval }

/-- `Transport.addToRetryQueue`. -/
def addToRetryQueue (opts : TransportOptions) (now : Nat)
    (st : TransportState) (data : List ReportData) : TransportState :=
  { st with retryQueue := st.retryQueue ++ [mkRetryItem opts now data] }

/-- The promise continuation of `Transport.sendBatch`, run when the
chain settles at time `now`: decrement `pendingRequests`; on rejection,
enqueue the batch into the retry queue; on resolution, nothing else
(in particular no retry record is removed). -/
def completeBatch (opts : TransportOptions) (now : Nat)
    (st : TransportState) (batch : List ReportData) (p : ReportPriority)
    (o : NetworkOracle) : TransportState :=
  let st1 := { st with pendingRequests := st.pendingRequests - 1 }
  if sendChainResolves p o then st1
  else addToRetryQueue opts now st1 batch

/-- The per-item body of the `processRetryQueue` loop at time `now`,
applied to every item whose `nextRetryTime` has elapsed: below the
attempt cap the item is kept with an incremented count and an
exponential-backoff next time (`now + retryInterval * 2 ^ newCount`)
and is resent (`true`); at the cap it is removed (`none`) without a
resend; a not-yet-eligible item is kept untouched. -/
def retryStepItem (opts : TransportOptions) (now : Nat)
    (item : RetryItem) : Option RetryItem × Bool :=
  if item.nextRetryTime ≤ now then
    if item.retryCount < opts.retryCount then
      (some { item with
                retryCount := item.retryCount + 1
                nextRetryTime :=
                  now + opts.retryInterval * 2 ^ (item.retryCount + 1) },
        true)
    else (none, false)
  else (some item, false)

/-- `Transport.processRetryQueue` (one retry-timer tick at time `now`):
skip when the retry queue is empty or more than 3 requests are in
flight; otherwise apply `retryStepItem` to every record, resending the
kept-and-eligible ones as medium-priority batches. -/
def processRetryQueue (opts : TransportOptions) (now : Nat)
    (st : TransportState) : TransportState :=
  if st.retryQueue = [] ∨ 3 < st.pendingRequests then st
  else
    st.retryQueue.foldl
      (fun acc item =>
        match retryStepItem opts now item with
        | (some it, resent) =>
          let acc1 := { acc with retryQueue := acc.retryQueue ++ [it] }
          if resent then sendBatchSync acc1 item.data .medium else acc1
        | (none, _) => acc)
      { st with retryQueue := [] }

/-- `Transport.destroy`: mark destroyed, flush all queues via the beacon
path, clear the retry queue. -/
def Transport.destroy (st : TransportState) : TransportState :=
  let st1 := flushAllQueues { st with isDestroyed := true }
  { st1 with retryQueue := [] }

/-- `Transport.flush`: manual trigger of one processing cycle. -/
def Transport.flush (opts : TransportOptions) (st : TransportState) :
    TransportState :=
  processQueuedData opts st

/-- Successive states of one retry record under prompt retry-timer
ticks (each tick happening exactly when the record becomes eligible),
with every resend failing again as far as this record is concerned:
`retryItemAfter opts data t0 k` is the record created at time `t0`
after `k` resends. -/
def retryItemAfter (opts : TransportOptions) (data : List ReportData)
    (t0 : Nat) : Nat → RetryItem
  | 0 => mkRetryItem opts t0 data
  | k + 1 =>
    let it := retryItemAfter opts data t0 k
    match retryStepItem opts it.nextRetryTime it with
    | (some it2, _) => it2
    | (none, _) => it

/-- Externally triggered transport operations used to study queue
evolution: an event arrival, a batch-timer tick, a manual flush. -/
inductive TransportOp where
  | send (d : ReportData)
  | timerTick
  | manualFlush
deriving DecidableEq, Repr

/-- Run a sequence of transport operations. -/
def runOps (opts : TransportOptions) (st : TransportState) :
    List TransportOp → TransportState
  | [] => st
  | op :: rest =>
    let st1 :=
      match op with
      | .send d => Transport.send opts st d
      | .timerTick => processQueuedData opts st
      | .manualFlush => Transport.flush opts st
    runOps opts st1 rest

/-- The high-priority events contained in an operation sequence, in
order. -/
def highsOf (ops : List TransportOp) : List ReportData :=
  ops.filterMap fun op =>
    match op with
    | .send d => if effectivePriority d = .high then some d else none
    | _ => none

/-- Fold a list of events through `Transport.send`. -/
def runSends (opts : TransportOptions) (st : TransportState)
    (l : List ReportData) : TransportState :=
  l.foldl (Transport.send opts) st

/-!  ## Durable queue store (`StorageManager`) -/

/-- What the persisted queue slot of `localStorage` can hold, as seen by
`JSON.parse`: a well-formed JSON array of report records, some other
valid JSON value, or a string `JSON.parse` throws on. -/
inductive StoredCell where
  | good (l : List ReportData)
  | notArray
  | corrupt
deriving DecidableEq, Repr

/-- The host `localStorage` as the store sees it.  `available` is the
outcome of the `isLocalStorageAvailable` probe; `setItemThrows` models
`setItem` raising (e.g. quota exceeded) even though the probe passed;
`queueCell` and `timerCell` are the two namespaced slots. -/
structure StorageState where
  available : Bool
  setItemThrows : Bool
  queueCell : Option StoredCell
  timerCell : Option Nat
deriving DecidableEq, Repr

/-- `MAX_STORAGE_SIZE`: 1 MiB cap on the serialized snapshot. -/
def MAX_STORAGE_SIZE : Nat := 1024 * 1024

/-- Model of `JSON.stringify(breadcrumb).length`: the string fields'
lengths plus a constant structural overhead. -/
def Breadcrumb.jsonLength (b : Breadcrumb) : Nat :=
  b.category.length + b.message.length + 48

/-- Model of `JSON.stringify(reportData).length`. -/
def ReportData.jsonLength (d : ReportData) : Nat :=
  d.appId.length + d.sessionId.length + d.userId.length + d.url.length +
    d.userAgent.length + d.connectionType.length + d.type.length +
    d.payload.length + (d.breadcrumbs.map Breadcrumb.jsonLength).sum + 160

/-- Model of `JSON.stringify(data).length` for the full pending set. -/
def jsonSize (l : List ReportData) : Nat :=
  (l.map ReportData.jsonLength).sum + 2

/-- `StorageManager.save`: `false` without writing when the medium is
unavailable or the serialized size exceeds the cap; a `setItem` that
throws is caught and also yields `false`; otherwise the snapshot is
written and `true` returned. -/
def StorageManager.save (st : StorageState) (data : List ReportData) :
    Bool × StorageState :=
  if !st.available then (false, st)
  else if MAX_STORAGE_SIZE < jsonSize data then (false, st)
  else if st.setItemThrows then (false, st)
  else (true, { st with queueCell := some (.good data) })

/-- `StorageManager.clear`: remove the queue slot when the medium is
available, otherwise a no-op. -/
def StorageManager.clear (st : StorageState) : StorageState :=
  if st.available then { st with queueCell := none } else st

/-- `StorageManager.load`: `[]` when the medium is unavailable or the
slot is empty; a value that parses to a non-array yields `[]`; a value
`JSON.parse` throws on is caught, the corrupted slot is cleared and `[]`
returned; otherwise the parsed array. -/
def StorageManager.load (st : StorageState) :
    List ReportData × StorageState :=
  if !st.available then ([], st)
  else
    match st.queueCell with
    | none => ([], st)
    | some (.good l) => (l, st)
    | some .notArray => ([], st)
    | some .corrupt => ([], StorageManager.clear st)

/-- `StorageManager.saveLastReportTime`: write the last-flush timestamp,
degrading to `false` when the medium is unavailable or `setItem`
throws. -/
def StorageManager.saveLastReportTime (st : StorageState) (ts : Nat) :
    Bool × StorageState :=
  if !st.available then (false, st)
  else if st.setItemThrows then (false, st)
  else (true, { st with timerCell := some ts })

/-- `StorageManager.getLastReportTime`: the stored timestamp, or 0 when
absent or the medium is unavailable. -/
def StorageManager.getLastReportTime (st : StorageState) : Nat :=
  if !st.available then 0
  else
    match st.timerCell with
    | none => 0
    | some ts => ts

/-!  ## Event coordinator (`Monitor`) -/

/-- A `beforeSend` hook: may transform the event, suppress it (`none`),
or throw (`Except.error`). -/
def BeforeSendHook : Type := ReportData → Except String (Option ReportData)

/-- User-facing monitor configuration (`MonitorConfig`): everything but
`appId` and `reportUrl` optional. -/
structure MonitorConfigInput where
  appId : String
  reportUrl : String
  sampling : Option ℚ := none
  debug : Option Bool := none
  enablePerformance : Option Bool := none
  enableError : Option Bool := none
  enableBehavior : Option Bool := none
  maxBreadcrumbsNum : Option Nat := none
  beforeSend : Option BeforeSendHook := none
  reportInterval : Option Nat := none
  batchSize : Option Nat := none
  maxQueueSize : Option Nat := none
  enableImmediateReport : Option Bool := none

/-- Fully defaulted monitor configuration (`Required<MonitorConfig>`). -/
structure MonitorConfig where
  appId : String
  reportUrl : String
  sampling : ℚ
  debug : Bool
  enablePerformance : Bool
  enableError : Bool
  enableBehavior : Bool
  maxBreadcrumbsNum : Nat
  beforeSend : BeforeSendHook
  reportInterval : Nat
  batchSize : Nat
  maxQueueSize : Nat
  enableImmediateReport : Bool

/-- `Monitor.mergeConfig`: merge the user configuration over the
documented defaults (sampling 1, debug off, all categories on,
breadcrumb cap 20, identity hook, 60 s interval, batch 10, queue
ceiling 100, immediate reporting on). -/
def mergeConfig (c : MonitorConfigInput) : MonitorConfig :=
  { appId := c.appId
    reportUrl := c.reportUrl
    sampling := c.sampling.getD 1
    debug := c.debug.getD false
    enablePerformance := c.enablePerformance.getD true
    enableError := c.enableError.getD true
    enableBehavior := c.enableBehavior.getD true
    maxBreadcrumbsNum := c.maxBreadcrumbsNum.getD 20
    beforeSend := c.beforeSend.getD (fun d => .ok (some d))
    reportInterval := c.reportInterval.getD 60000
    batchSize := c.batchSize.getD 10
    maxQueueSize := c.maxQueueSize.getD 100
    enableImmediateReport := c.enableImmediateReport.getD true }

/-- The transport options the `Monitor` constructor passes to
`new Transport(...)` (remaining fields take the transport defaults). -/
def transportOptionsOf (cfg : MonitorConfig) : TransportOptions :=
  mergeTransportOptions
    { url := cfg.reportUrl
      reportInterval := some cfg.reportInterval
      batchSize := some cfg.batchSize
      maxQueueSize := some cfg.maxQueueSize
      enableImmediateReport := some cfg.enableImmediateReport }

/-- `Monitor.shouldSample`: one Bernoulli draw,
`Math.random() < sampling`, with the random draw made explicit. -/
def shouldSample (draw : ℚ) (sampling : ℚ) : Bool :=
  draw < sampling

/-- Mutable state of the `Monitor` coordinator.  `errorHandlingInstalled`
is the ghost record of `setupErrorHandling` having run (the only thing
the sampling decision gates in the source); `logs` is the ghost console
trace. -/
structure MonitorState where
  config : MonitorConfig
  breadcrumbs : List Breadcrumb
  isDestroyed : Bool
  errorHandlingInstalled : Bool
  transport : TransportState
  sessionId : String
  userId : String
  logs : List String

/-- Monitor construction: merge the configuration, create the transport,
and make the single per-session sampling decision, which gates only the
installation of the global error listeners. -/
def mkMonitor (c : MonitorConfigInput) (draw : ℚ)
    (sessionId userId : String) : MonitorState :=
  let config := mergeConfig c
  { config := config
    breadcrumbs := []
    isDestroyed := false
    errorHandlingInstalled := shouldSample draw config.sampling
    transport := TransportState.initial
    sessionId := sessionId
    userId := userId
    logs := [] }

/-- `Monitor.addBreadcrumb` on the raw history list: when the history
has reached the configured cap, the oldest entry is shifted off before
the new one is pushed. -/
def Monitor.addBreadcrumb (cap : Nat) (bs : List Breadcrumb)
    (b : Breadcrumb) : List Breadcrumb :=
  (if cap ≤ bs.length then bs.drop 1 else bs) ++ [b]

/-- The breadcrumb history produced by a sequence of `addBreadcrumb`
calls starting from the empty history. -/
def breadcrumbHistory (cap : Nat) (l : List Breadcrumb) :
    List Breadcrumb :=
  l.foldl (Monitor.addBreadcrumb cap) []

/-- Ambient host context read by `Monitor.report` (clock, location,
user agent, connection type). -/
structure HostEnv where
  now : Nat
  url : String
  userAgent : String
  connectionType : String
deriving DecidableEq, Repr

/-- The enriched record `Monitor.report` assembles: context stamps plus
a snapshot copy of the breadcrumb history plus the producer data. -/
def buildReportData (st : MonitorState) (env : HostEnv)
    (inp : ReportInput) : ReportData :=
  { appId := st.config.appId
    timestamp := env.now
    sessionId := st.sessionId
    userId := st.userId
    url := env.url
    userAgent := env.userAgent
    connectionType := env.connectionType
    breadcrumbs := st.breadcrumbs
    type := inp.type
    priority := inp.priority
    payload := inp.payload }

/-- The body of `Monitor.report` as run inside `safeExecute`: build the
record, run the `beforeSend` hook (which may throw — `Except.error` —
or suppress the event), and on a non-null result forward it to the
transport, logging in debug mode. -/
def reportBody (st : MonitorState) (env : HostEnv) (inp : ReportInput) :
    Except String MonitorState :=
  let rd := buildReportData st env inp
  match st.config.beforeSend rd with
  | .error e => .error e
  | .ok none => .ok st
  | .ok (some d) =>
    .ok { st with
            transport :=
              Transport.send (transportOptionsOf st.config) st.transport d
            logs := st.logs ++
              if st.config.debug then ["WebMonitorSDK Report"] else [] }

/-- `Monitor.safeExecute`: skip when destroyed; run the body; catch any
exception, logging it only in debug mode, and never re-raise. -/
def safeExecute (st : MonitorState) (body : Except String MonitorState) :
    MonitorState :=
  if st.isDestroyed then st
  else
    match body with
    | .ok st1 => st1
    | .error _ =>
      if st.config.debug then
        { st with logs := st.logs ++ ["WebMonitorSDK internal error"] }
      else st

/-- `Monitor.report`: the report body wrapped in `safeExecute`. -/
def Monitor.report (st : MonitorState) (env : HostEnv)
    (inp : ReportInput) : MonitorState :=
  safeExecute st (reportBody st env inp)

/-- The semantics `Monitor.report` would have if the failure-isolating
wrapper were absent: the body's exceptions propagate to the caller. -/
def Monitor.reportRaw (st : MonitorState) (env : HostEnv)
    (inp : ReportInput) : Except String MonitorState :=
  if st.isDestroyed then .ok st else reportBody st env inp

/-!  ## Concrete scenario data used by witnesses and counterexamples -/

/-- Transport options with everything left at its default. -/
def stdOpts : TransportOptions :=
  mergeTransportOptions { url := "https://collector.test/x" }

/-- Transport options with immediate reporting disabled. -/
def c10Opts : TransportOptions :=
  mergeTransportOptions
    { url := "https://collector.test/x", enableImmediateReport := some false }

/-- Transport options with a queue ceiling of 2. -/
def c4Opts : TransportOptions :=
  mergeTransportOptions
    { url := "https://collector.test/x", maxQueueSize := some 2 }

/-- A concrete error event (no explicit priority). -/
def errEvent : ReportData :=
  { appId := "app", timestamp := 1, sessionId := "sess", userId := "user"
    url := "https://page", userAgent := "UA", connectionType := "4g"
    breadcrumbs := [], type := "error", priority := none, payload := "boom" }

/-- A concrete behavior event (no explicit priority). -/
def behEvent : ReportData :=
  { appId := "app", timestamp := 2, sessionId := "sess", userId := "user"
    url := "https://page", userAgent := "UA", connectionType := "4g"
    breadcrumbs := [], type := "behavior", priority := none
    payload := "click" }

/-- A concrete breadcrumb. -/
def bc0 : Breadcrumb := { timestamp := 0, category := "click", message := "m" }

/-- A one-event batch. -/
def demoBatch : List ReportData := [errEvent]

/-- A host context sample. -/
def demoEnv : HostEnv :=
  { now := 1000, url := "https://page", userAgent := "UA"
    connectionType := "4g" }

/-- A producer report input of category error. -/
def demoInput : ReportInput :=
  { type := "error", priority := none, payload := "boom" }

/-- A `beforeSend` hook that throws. -/
def throwingHook : BeforeSendHook := fun _ => .error "hook boom"

/-- A monitor whose hook throws, with debug mode on. -/
def c1DemoState : MonitorState :=
  mkMonitor
    { appId := "app", reportUrl := "https://collector.test/x"
      beforeSend := some throwingHook, debug := some true } 0 "sess" "user"

/-- A configuration input leaving the breadcrumb cap at its default. -/
def c2DemoCfg : MonitorConfigInput :=
  { appId := "app", reportUrl := "https://collector.test/x" }

/-- Oracle for a terminally failing high-priority attempt: the beacon
reports failure. -/
def failOracle : NetworkOracle :=
  { beacon := .rejected, fetchOk := false, xhrOpenThrows := false
    xhrNetworkFails := true }

/-- Oracle for a successful attempt via fetch. -/
def okOracle : NetworkOracle :=
  { beacon := .unsupported, fetchOk := true, xhrOpenThrows := false
    xhrNetworkFails := false }

/-- Oracle where fetch fails and the fallback XHR also fails on the
network (its setup does not throw, so the failure is invisible). -/
def xhrFailOracle : NetworkOracle :=
  { beacon := .unsupported, fetchOk := false, xhrOpenThrows := false
    xhrNetworkFails := true }

/-- C6 scenario, step 1: the first delivery attempt of a high-priority
batch fails at time 0, so the batch enters the retry queue. -/
def c6AfterFail : TransportState :=
  completeBatch stdOpts 0
    (sendBatchSync TransportState.initial demoBatch .high)
    demoBatch .high failOracle

/-- C6 scenario, step 2: the retry-timer tick at time 1000 resends the
batch (as a medium-priority batch, per the source). -/
def c6AfterRetryTick : TransportState :=
  processRetryQueue stdOpts 1000 c6AfterFail

/-- C6 scenario, step 3: the resend succeeds. -/
def c6AfterSuccess : TransportState :=
  completeBatch stdOpts 1500 c6AfterRetryTick demoBatch .medium okOracle

/-- C6 scenario, step 4: the next retry-timer tick at time 3000. -/
def c6SecondTick : TransportState :=
  processRetryQueue stdOpts 3000 c6AfterSuccess

/-- Monitor configuration with sampling rate 0: the per-session
Bernoulli decision is negative for every draw in [0, 1). -/
def c8Cfg : MonitorConfigInput :=
  { appId := "app", reportUrl := "https://collector.test/x"
    sampling := some 0 }

/-- A monitor built from `c8Cfg` with random draw 0 (decision
negative). -/
def c8Monitor : MonitorState := mkMonitor c8Cfg 0 "sess" "user"

/-!  ## Helper lemmas -/

/-- `sendBatch` does not touch the high-priority queue. -/
theorem sendBatchSync_high (st : TransportState) (b : List ReportData)
    (p : ReportPriority) :
    (sendBatchSync st b p).highPriorityQueue = st.highPriorityQueue := by
  unfold sendBatchSync
  split <;> rfl

/-- `sendBatch` does not change the destroyed flag. -/
theorem sendBatchSync_destroyed (st : TransportState)
    (b : List ReportData) (p : ReportPriority) :
    (sendBatchSync st b p).isDestroyed = st.isDestroyed := by
  unfold sendBatchSync
  split <;> rfl

/-- `sendBatch` does not change the forced-flush count. -/
theorem sendBatchSync_forcedFlushes (st : TransportState)
    (b : List ReportData) (p : ReportPriority) :
    (sendBatchSync st b p).forcedFlushes = st.forcedFlushes := by
  unfold sendBatchSync
  split <;> rfl

/-- A batch-processing cycle never removes events from the
high-priority queue. -/
theorem processQueuedData_high (opts : TransportOptions)
    (st : TransportState) :
    (processQueuedData opts st).highPriorityQueue =
      st.highPriorityQueue := by
  unfold processQueuedData
  split
  · rfl
  · rename_i h
    have hd : st.isDestroyed = false := by
      cases hb : st.isDestroyed
      · rfl
      · exact absurd (Or.inl hb) h
    dsimp only
    split <;> split <;> split <;> simp [sendBatchSync, hd]

/-- A batch-processing cycle does not change the destroyed flag. -/
theorem processQueuedData_destroyed (opts : TransportOptions)
    (st : TransportState) :
    (processQueuedData opts st).isDestroyed = st.isDestroyed := by
  unfold processQueuedData
  split
  · rfl
  · rename_i h
    have hd : st.isDestroyed = false := by
      cases hb : st.isDestroyed
      · rfl
      · exact absurd (Or.inl hb) h
    dsimp only
    split <;> split <;> split <;> simp [sendBatchSync, hd]

/-- A batch-processing cycle does not change the forced-flush count. -/
theorem processQueuedData_forcedFlushes (opts : TransportOptions)
    (st : TransportState) :
    (processQueuedData opts st).forcedFlushes = st.forcedFlushes := by
  unfold processQueuedData
  split
  · rfl
  · rename_i h
    have hd : st.isDestroyed = false := by
      cases hb : st.isDestroyed
      · rfl
      · exact absurd (Or.inl hb) h
    dsimp only
    split <;> split <;> split <;> simp [sendBatchSync, hd]

/-- The overflow check never removes events from the high-priority
queue. -/
theorem checkQueueOverflow_high (opts : TransportOptions)
    (st : TransportState) :
    (checkQueueOverflow opts st).highPriorityQueue =
      st.highPriorityQueue := by
  unfold checkQueueOverflow
  split
  · rw [processQueuedData_high]
  · rfl

/-- The overflow check does not change the destroyed flag. -/
theorem checkQueueOverflow_destroyed (opts : TransportOptions)
    (st : TransportState) :
    (checkQueueOverflow opts st).isDestroyed = st.isDestroyed := by
  unfold checkQueueOverflow
  split
  · rw [processQueuedData_destroyed]
  · rfl

/-- Appending to a priority queue preserves the destroyed flag. -/
theorem addToQueue_destroyed (st : TransportState) (d : ReportData)
    (p : ReportPriority) :
    (addToQueue st d p).isDestroyed = st.isDestroyed := by
  cases p <;> rfl

/-- Appending to a priority queue preserves the forced-flush count. -/
theorem addToQueue_forcedFlushes (st : TransportState) (d : ReportData)
    (p : ReportPriority) :
    (addToQueue st d p).forcedFlushes = st.forcedFlushes := by
  cases p <;> rfl

/-- Appending to a priority queue grows the total resident count by
one. -/
theorem addToQueue_total (st : TransportState) (d : ReportData)
    (p : ReportPriority) :
    totalQueueSize (addToQueue st d p) = totalQueueSize st + 1 := by
  cases p <;> simp [addToQueue, totalQueueSize] <;> omega

/-- `send` does not change the destroyed flag. -/
theorem send_destroyed (opts : TransportOptions) (st : TransportState)
    (d : ReportData) :
    (Transport.send opts st d).isDestroyed = st.isDestroyed := by
  unfold Transport.send
  split
  · rfl
  · dsimp only
    split
    · rw [sendImmediately, sendBatchSync_destroyed]
    · rw [checkQueueOverflow_destroyed, addToQueue_destroyed]

/-!  ## Claim theorems -/

/-- C9: every durable-queue-store operation is total and degrades
instead of throwing: `save` returns `false` without writing when the
medium is unavailable, when the serialized size exceeds the 1 MiB cap,
or when the underlying `setItem` raises; `load` returns `[]` and clears
the slot when the stored value fails to parse; and `save`, `load`,
`clear`, `saveLastReportTime`, `getLastReportTime` all degrade to
`false`/empty/no-op/0 results when the medium is unavailable. -/
theorem c9_storage_total_and_degrading :
    ∀ (st : StorageState) (data : List ReportData) (ts : Nat),
      (st.available = false →
        StorageManager.save st data = (false, st) ∧
        StorageManager.load st = ([], st) ∧
        StorageManager.clear st = st ∧
        StorageManager.saveLastReportTime st ts = (false, st) ∧
        StorageManager.getLastReportTime st = 0) ∧
      (MAX_STORAGE_SIZE < jsonSize data →
        StorageManager.save st data = (false, st)) ∧
      (st.setItemThrows = true →
        StorageManager.save st data = (false, st)) ∧
      (st.available = true → st.queueCell = some .corrupt →
        StorageManager.load st = ([], { st with queueCell := none })) := by
  intro st data ts
  refine ⟨?_, ?_, ?_, ?_⟩
  · intro h
    simp [StorageManager.save, StorageManager.load, StorageManager.clear,
      StorageManager.saveLastReportTime, StorageManager.getLastReportTime, h]
  · intro h
    simp [StorageManager.save, h]
  · intro h
    simp [StorageManager.save, h]
  · intro hav hc
    simp [StorageManager.load, StorageManager.clear, hav, hc]

/-- C9 witness: concrete unavailable and corrupt stores. -/
theorem c9_storage_total_and_degrading_witness :
    StorageManager.save
        { available := false, setItemThrows := false, queueCell := none
          timerCell := none } [] =
      (false,
        { available := false, setItemThrows := false, queueCell := none
          timerCell := none }) ∧
    StorageManager.load
        { available := true, setItemThrows := false
          queueCell := some .corrupt, timerCell := none } =
      ([],
        { available := true, setItemThrows := false, queueCell := none
          timerCell := none }) := by
  constructor
  · exact ((c9_storage_total_and_degrading
      { available := false, setItemThrows := false, queueCell := none
        timerCell := none } [] 0).1 rfl).1
  · exact (c9_storage_total_and_degrading
      { available := true, setItemThrows := false
        queueCell := some .corrupt, timerCell := none } [] 0).2.2.2 rfl rfl

/-- C1: `Monitor.report` never propagates an exception: whenever the
unwrapped report body yields a state, `report` returns exactly that
state, and whenever it raises, `report` still returns normally with the
transport and breadcrumbs untouched, the exception swallowed, and a
console trace emitted exactly when debug mode is on. -/
theorem c1_report_never_propagates :
    ∀ (st : MonitorState) (env : HostEnv) (inp : ReportInput),
      (∀ st1, Monitor.reportRaw st env inp = .ok st1 →
        Monitor.report st env inp = st1) ∧
      (∀ e, Monitor.reportRaw st env inp = .error e →
        (Monitor.report st env inp).transport = st.transport ∧
        (Monitor.report st env inp).breadcrumbs = st.breadcrumbs ∧
        ((Monitor.report st env inp).logs = st.logs ↔
          st.config.debug = false)) := by
  intro st env inp
  unfold Monitor.report Monitor.reportRaw safeExecute
  by_cases hd : st.isDestroyed
  · simp [hd]
  · simp only [hd, if_false, Bool.false_eq_true]
    cases hb : reportBody st env inp with
    | ok st1 => simp
    | error e =>
      constructor
      · intro st1 h
        exact absurd h (by simp)
      · intro e1 h
        by_cases hdbg : st.config.debug <;>
          simp [hdbg, List.append_right_eq_self]

/-- C1 witness: a throwing `beforeSend` hook with debug mode on. -/
theorem c1_report_never_propagates_witness :
    (Monitor.report c1DemoState demoEnv demoInput).transport =
      c1DemoState.transport ∧
    ((Monitor.report c1DemoState demoEnv demoInput).logs =
        c1DemoState.logs ↔ c1DemoState.config.debug = false) := by
  have h := (c1_report_never_propagates c1DemoState demoEnv demoInput).2
    "hook boom" (by rfl)
  exact ⟨h.1, h.2.2⟩

/-- C3: the effective priority of an event is its explicit priority if
present, else derived from its category (error → high, performance →
medium, behavior → low, anything else → medium); a high event with
immediate reporting enabled is transmitted at once as a one-element
batch, and any other event is appended to its priority queue followed
by the overflow check. -/
theorem c3_send_priority_dispatch :
    ∀ (opts : TransportOptions) (st : TransportState) (d : ReportData)
      (q : ReportPriority) (s : String),
      (d.priority = some q → effectivePriority d = q) ∧
      (d.priority = none →
        effectivePriority d = getDefaultPriority d.type) ∧
      (getDefaultPriority "error" = .high ∧
        getDefaultPriority "performance" = .medium ∧
        getDefaultPriority "behavior" = .low ∧
        (s ≠ "error" → s ≠ "performance" → s ≠ "behavior" →
          getDefaultPriority s = .medium)) ∧
      (st.isDestroyed = false → effectivePriority d = .high →
        opts.enableImmediateReport = true →
        Transport.send opts st d =
          { st with pendingRequests := st.pendingRequests + 1
                    sentBatches := st.sentBatches ++ [([d], .high)] }) ∧
      (st.isDestroyed = false →
        ¬(effectivePriority d = .high ∧
            opts.enableImmediateReport = true) →
        Transport.send opts st d =
          checkQueueOverflow opts
            (addToQueue st d (effectivePriority d))) := by
  intro opts st d q s
  refine ⟨?_, ?_, ⟨rfl, rfl, rfl, ?_⟩, ?_, ?_⟩
  · intro h
    simp [effectivePriority, h]
  · intro h
    simp [effectivePriority, h]
  · intro h1 h2 h3
    unfold getDefaultPriority
    split <;> simp_all
  · intro hd hp hi
    unfold Transport.send
    simp [hd, hp, hi, sendImmediately, sendBatchSync]
  · intro hd hni
    unfold Transport.send
    simp [hd, hni]

/-- C3 witness: a concrete error event with immediate reporting on is
sent at once as a one-element high-priority batch. -/
theorem c3_send_priority_dispatch_witness :
    Transport.send stdOpts TransportState.initial errEvent =
      { TransportState.initial with
          pendingRequests := 1
          sentBatches := [([errEvent], .high)] } := by
  have h := (c3_send_priority_dispatch stdOpts TransportState.initial
    errEvent .high "x").2.2.2.1 rfl (by decide) rfl
  simpa using h

/-- C7 counterexample: a medium-priority batch whose fetch attempt fails
and whose XHR fallback also terminally fails on the network is treated
as sent — the promise chain resolves and the batch is never enqueued
into the retry queue, contradicting the claim that a batch failing all
transport strategies is always enqueued rather than discarded. -/
theorem c7_counterexample_xhr_silent_drop :
    sendChainResolves .medium xhrFailOracle = true ∧
    xhrFailOracle.fetchOk = false ∧
    xhrFailOracle.xhrNetworkFails = true ∧
    (completeBatch stdOpts 0
        (sendBatchSync TransportState.initial demoBatch .medium)
        demoBatch .medium xhrFailOracle).retryQueue = [] := by
  exact ⟨rfl, rfl, rfl, rfl⟩

/-- C7 amended: a batch is enqueued into the retry queue exactly when
its promise chain rejects.  For a high-priority batch the chain rejects
when the beacon reports failure or when the beacon is unavailable and
fetch fails, so such terminal failures are enqueued.  For medium/low
batches a fetch failure falls back to fire-and-forget XHR and the chain
then resolves unless the XHR call throws synchronously, so a batch
whose last-resort XHR fails on the network is silently dropped; the XHR
network outcome is never consulted. -/
theorem c7_retry_enqueue_amended :
    ∀ (opts : TransportOptions) (now : Nat) (st : TransportState)
      (batch : List ReportData) (p : ReportPriority) (o : NetworkOracle)
      (f x n : Bool),
      (completeBatch opts now st batch p o).retryQueue =
        (if sendChainResolves p o then st.retryQueue
         else st.retryQueue ++ [mkRetryItem opts now batch]) ∧
      sendChainResolves .high
          { beacon := .rejected, fetchOk := f, xhrOpenThrows := x
            xhrNetworkFails := n } = false ∧
      sendChainResolves .high
          { beacon := .unsupported, fetchOk := f, xhrOpenThrows := x
            xhrNetworkFails := n } = f ∧
      sendChainResolves .high
          { beacon := .accepted, fetchOk := f, xhrOpenThrows := x
            xhrNetworkFails := n } = true ∧
      sendChainResolves .medium o = (o.fetchOk || !o.xhrOpenThrows) ∧
      sendChainResolves .low o = (o.fetchOk || !o.xhrOpenThrows) ∧
      sendChainResolves p
          { beacon := o.beacon, fetchOk := o.fetchOk
            xhrOpenThrows := o.xhrOpenThrows, xhrNetworkFails := n } =
        sendChainResolves p o := by
  intro opts now st batch p o f x n
  refine ⟨?_, rfl, rfl, rfl, rfl, rfl, ?_⟩
  · unfold completeBatch
    split <;> rfl
  · cases p <;> rfl

/-- One more breadcrumb append acts on the history of the previous
appends. -/
theorem breadcrumbHistory_concat (cap : Nat) (l : List Breadcrumb)
    (a : Breadcrumb) :
    breadcrumbHistory cap (l ++ [a]) =
      Monitor.addBreadcrumb cap (breadcrumbHistory cap l) a := by
  unfold breadcrumbHistory
  rw [List.foldl_append]
  rfl

/-- For any cap ≥ 1, the breadcrumb history after appending the entries
of `l` in order is exactly the suffix of `l` of length `min l.length
cap`. -/
theorem breadcrumbHistory_eq_drop (cap : Nat) (hcap : 1 ≤ cap)
    (l : List Breadcrumb) :
    breadcrumbHistory cap l = l.drop (l.length - cap) := by
  induction l using List.reverseRecOn with
  | nil => simp [breadcrumbHistory]
  | append_singleton l a ih =>
    rw [breadcrumbHistory_concat, ih]
    unfold Monitor.addBreadcrumb
    have hL : (l ++ [a]).length = l.length + 1 := by simp
    rw [hL]
    by_cases hlen : cap ≤ l.length
    · have hc : cap ≤ (l.drop (l.length - cap)).length := by
        rw [List.length_drop]
        omega
      rw [if_pos hc, List.drop_drop]
      have h2 : l.length + 1 - cap ≤ l.length := by omega
      rw [List.drop_append_of_le_length h2]
      have h1 : l.length - cap + 1 = l.length + 1 - cap := by omega
      rw [h1]
    · have h0 : l.length - cap = 0 := by omega
      have h1 : l.length + 1 - cap = 0 := by omega
      simp [h0, h1, hlen]

/-- C2 counterexample: with a configured breadcrumb cap of 0, a single
append leaves one entry in the history, so the history length exceeds
the cap. -/
theorem c2_counterexample_cap_zero :
    breadcrumbHistory 0 [bc0] = [bc0] ∧
    ¬ (breadcrumbHistory 0 [bc0]).length ≤ 0 := by
  constructor
  · rfl
  · decide

/-- C2 amended: for every configuration whose merged breadcrumb cap C
is at least 1 (the default is 20), the history length never exceeds C
and, once more than C entries have been appended, the history is
exactly the last C appended entries in append order. -/
theorem c2_breadcrumb_ring_buffer_amended :
    ∀ (c : MonitorConfigInput) (l : List Breadcrumb),
      1 ≤ (mergeConfig c).maxBreadcrumbsNum →
      (breadcrumbHistory (mergeConfig c).maxBreadcrumbsNum l).length ≤
          (mergeConfig c).maxBreadcrumbsNum ∧
      ((mergeConfig c).maxBreadcrumbsNum < l.length →
        breadcrumbHistory (mergeConfig c).maxBreadcrumbsNum l =
          l.drop (l.length - (mergeConfig c).maxBreadcrumbsNum)) := by
  intro c l hcap
  constructor
  · rw [breadcrumbHistory_eq_drop _ hcap, List.length_drop]
    omega
  · intro _
    exact breadcrumbHistory_eq_drop _ hcap l

/-- C2 witness: the default cap (20) with three appends. -/
theorem c2_breadcrumb_ring_buffer_amended_witness :
    (breadcrumbHistory (mergeConfig c2DemoCfg).maxBreadcrumbsNum
        [bc0, bc0, bc0]).length ≤
      (mergeConfig c2DemoCfg).maxBreadcrumbsNum := by
  exact (c2_breadcrumb_ring_buffer_amended c2DemoCfg [bc0, bc0, bc0]
    (by decide)).1

/-- Appending to a priority queue appends to the high queue exactly for
high priority. -/
theorem addToQueue_high (st : TransportState) (d : ReportData)
    (p : ReportPriority) :
    (addToQueue st d p).highPriorityQueue =
      st.highPriorityQueue ++
        (if p = .high then [d] else []) := by
  cases p <;> simp [addToQueue]

/-- With immediate reporting disabled, `send` on a live transport
appends exactly the high-priority events to the high queue. -/
theorem send_high_immediate_off (opts : TransportOptions)
    (st : TransportState) (d : ReportData)
    (hi : opts.enableImmediateReport = false)
    (hd : st.isDestroyed = false) :
    (Transport.send opts st d).highPriorityQueue =
      st.highPriorityQueue ++
        (if effectivePriority d = .high then [d] else []) := by
  unfold Transport.send
  rw [if_neg (by simp [hd])]
  dsimp only
  rw [if_neg (by simp [hi])]
  rw [checkQueueOverflow_high, addToQueue_high]

/-- C10: a batch-processing cycle (timer tick, manual flush, overflow)
drains only the medium and low queues and never removes events from the
high-priority queue; the page-hide/unload/destroy flush empties it; and
with immediate reporting disabled, any run of sends, timer ticks and
manual flushes leaves the high queue holding exactly the original
contents followed by every high-priority event sent, in order. -/
theorem c10_high_queue_drains_only_on_flush :
    ∀ (opts : TransportOptions) (st : TransportState)
      (ops : List TransportOp),
      (processQueuedData opts st).highPriorityQueue =
        st.highPriorityQueue ∧
      (flushAllQueues st).highPriorityQueue = [] ∧
      (opts.enableImmediateReport = false → st.isDestroyed = false →
        (runOps opts st ops).highPriorityQueue =
          st.highPriorityQueue ++ highsOf ops) := by
  intro opts st ops
  refine ⟨processQueuedData_high opts st, ?_, ?_⟩
  · unfold flushAllQueues
    dsimp only
    split
    · rfl
    · rename_i h
      have h0 : (st.highPriorityQueue ++ st.mediumPriorityQueue ++
          st.lowPriorityQueue).length = 0 := by omega
      rw [List.length_append, List.length_append] at h0
      have hz : st.highPriorityQueue.length = 0 := by omega
      exact List.length_eq_zero.mp hz
  · intro hi
    induction ops generalizing st with
    | nil =>
      intro _
      simp [runOps, highsOf]
    | cons op rest ih =>
      intro hd
      cases op with
      | send d =>
        have hd1 : (Transport.send opts st d).isDestroyed = false := by
          rw [send_destroyed]
          exact hd
        show (runOps opts (Transport.send opts st d) rest).highPriorityQueue = _
        rw [ih _ hd1, send_high_immediate_off opts st d hi hd]
        by_cases hp : effectivePriority d = .high <;>
          simp [highsOf, List.filterMap_cons, hp]
      | timerTick =>
        have hd1 : (processQueuedData opts st).isDestroyed = false := by
          rw [processQueuedData_destroyed]
          exact hd
        show (runOps opts (processQueuedData opts st) rest).highPriorityQueue = _
        rw [ih _ hd1, processQueuedData_high]
        simp [highsOf, List.filterMap_cons]
      | manualFlush =>
        have hd1 : (Transport.flush opts st).isDestroyed = false := by
          rw [Transport.flush, processQueuedData_destroyed]
          exact hd
        show (runOps opts (Transport.flush opts st) rest).highPriorityQueue = _
        rw [ih _ hd1, Transport.flush, processQueuedData_high]
        simp [highsOf, List.filterMap_cons]

/-- C10 witness: with immediate reporting off, an error event followed
by a timer tick leaves the event resident in the high queue. -/
theorem c10_high_queue_drains_only_on_flush_witness :
    (runOps c10Opts TransportState.initial
        [.send errEvent, .timerTick]).highPriorityQueue = [errEvent] := by
  have h := (c10_high_queue_drains_only_on_flush c10Opts
      TransportState.initial [.send errEvent, .timerTick]).2.2 rfl rfl
  rw [h]
  rfl

/-- Forced-flush count of a send run from a live, not-yet-overflowing
state: the overflow condition `total ≥ maxQueueSize` fires exactly when
the resident total reaches the ceiling. -/
theorem runSends_forcedFlushes (opts : TransportOptions) :
    ∀ (l : List ReportData) (st : TransportState),
      st.isDestroyed = false →
      st.forcedFlushes = 0 →
      totalQueueSize st < opts.maxQueueSize →
      (∀ d ∈ l, effectivePriority d ≠ .high) →
      totalQueueSize st + l.length ≤ opts.maxQueueSize →
      (runSends opts st l).forcedFlushes =
        if totalQueueSize st + l.length = opts.maxQueueSize then 1
        else 0 := by
  intro l
  induction l with
  | nil =>
    intro st hd hf hlt _ _
    show st.forcedFlushes = _
    rw [hf, if_neg (by simp only [List.length_nil]; omega)]
  | cons d rest ih =>
    intro st hd hf hlt hnh hb
    have hp : effectivePriority d ≠ .high := hnh d (List.mem_cons_self d rest)
    have hstep : Transport.send opts st d =
        checkQueueOverflow opts (addToQueue st d (effectivePriority d)) := by
      unfold Transport.send
      rw [if_neg (by simp [hd])]
      dsimp only
      rw [if_neg (by simp [hp])]
    have hrun : runSends opts st (d :: rest) =
        runSends opts (Transport.send opts st d) rest := rfl
    have htot := addToQueue_total st d (effectivePriority d)
    simp only [List.length_cons] at hb
    rw [hrun, hstep]
    by_cases hofl : opts.maxQueueSize ≤
        totalQueueSize (addToQueue st d (effectivePriority d))
    · have hQ : totalQueueSize st + 1 = opts.maxQueueSize := by omega
      have hrest : rest = [] := by
        have hz : rest.length = 0 := by omega
        exact List.length_eq_zero.mp hz
      subst hrest
      have hck : checkQueueOverflow opts
          (addToQueue st d (effectivePriority d)) =
          processQueuedData opts
            { addToQueue st d (effectivePriority d) with
                forcedFlushes :=
                  (addToQueue st d (effectivePriority d)).forcedFlushes +
                    1 } := by
        unfold checkQueueOverflow
        rw [if_pos hofl]
      rw [hck]
      show (processQueuedData opts _).forcedFlushes = _
      rw [processQueuedData_forcedFlushes]
      show (addToQueue st d (effectivePriority d)).forcedFlushes + 1 = _
      rw [addToQueue_forcedFlushes, hf, List.length_cons, List.length_nil]
      rw [if_pos (by omega)]
    · have hck : checkQueueOverflow opts
          (addToQueue st d (effectivePriority d)) =
          addToQueue st d (effectivePriority d) := by
        unfold checkQueueOverflow
        rw [if_neg hofl]
      rw [hck]
      have hd1 : (addToQueue st d (effectivePriority d)).isDestroyed =
          false := by
        rw [addToQueue_destroyed]
        exact hd
      have hf1 : (addToQueue st d (effectivePriority d)).forcedFlushes =
          0 := by
        rw [addToQueue_forcedFlushes]
        exact hf
      have hnh1 : ∀ x ∈ rest, effectivePriority x ≠ .high :=
        fun x hx => hnh x (List.mem_cons_of_mem d hx)
      rw [ih (addToQueue st d (effectivePriority d)) hd1 hf1 (by omega)
        hnh1 (by omega)]
      rw [htot]
      have harith : totalQueueSize st + 1 + rest.length =
          totalQueueSize st + (rest.length + 1) := by omega
      rw [harith, List.length_cons]

/-- C4 counterexample: with `maxQueueSize = 2`, enqueuing just 2
low-priority events (Q events, not Q+1) already triggers a forced-flush
cycle, because the overflow condition is `total ≥ maxQueueSize`. -/
theorem c4_counterexample_flush_at_capacity :
    c4Opts.maxQueueSize = 2 ∧
    (runSends c4Opts TransportState.initial
        [behEvent, behEvent]).forcedFlushes = 1 := by
  exact ⟨rfl, rfl⟩

/-- C4 amended: with merged ceiling Q ≥ 1, starting from empty queues,
enqueuing N ≤ Q medium/low-priority events triggers exactly one
forced-flush cycle when N = Q (at the Q-th enqueue, since the overflow
test is `total ≥ Q`) and none when N < Q; the overflow condition is
evaluated on the total resident count across all three priority
queues. -/
theorem c4_overflow_at_capacity_amended :
    ∀ (opts : TransportOptions) (l : List ReportData)
      (st : TransportState),
      (1 ≤ opts.maxQueueSize →
        (∀ d ∈ l, effectivePriority d ≠ .high) →
        l.length ≤ opts.maxQueueSize →
        (runSends opts TransportState.initial l).forcedFlushes =
          if l.length = opts.maxQueueSize then 1 else 0) ∧
      (checkQueueOverflow opts st).forcedFlushes =
        st.forcedFlushes +
          (if opts.maxQueueSize ≤ totalQueueSize st then 1 else 0) := by
  intro opts l st
  constructor
  · intro hQ hnh hl
    have hz : totalQueueSize TransportState.initial = 0 := rfl
    have h := runSends_forcedFlushes opts l TransportState.initial rfl rfl
      (by omega) hnh (by omega)
    rw [hz] at h
    simpa using h
  · unfold checkQueueOverflow
    split
    · rename_i h
      rw [processQueuedData_forcedFlushes]
    · rename_i h
      simp [h]

/-- C4 witness: one low-priority event against a ceiling of 2 triggers
no forced flush. -/
theorem c4_overflow_at_capacity_amended_witness :
    (runSends c4Opts TransportState.initial [behEvent]).forcedFlushes =
      0 := by
  have h := (c4_overflow_at_capacity_amended c4Opts [behEvent]
      TransportState.initial).1 (by decide) (by decide) (by decide)
  exact h.trans (by decide)

/-- Closed forms for one retry record under prompt ticks: after `k ≤
max` failing resends the attempt count is `k` and the next-eligible
time is `t0 + base * (2 ^ (k + 1) - 1)`, i.e. the successive delays are
base, base·2, base·4, … -/
theorem retryItemAfter_spec (opts : TransportOptions)
    (data : List ReportData) (t0 : Nat) :
    ∀ k, k ≤ opts.retryCount →
      (retryItemAfter opts data t0 k).data = data ∧
      (retryItemAfter opts data t0 k).retryCount = k ∧
      (retryItemAfter opts data t0 k).nextRetryTime =
        t0 + opts.retryInterval * (2 ^ (k + 1) - 1) := by
  intro k
  induction k with
  | zero =>
    intro _
    refine ⟨rfl, rfl, ?_⟩
    simp [retryItemAfter, mkRetryItem]
  | succ k ih =>
    intro hk
    have hklt : k < opts.retryCount := hk
    obtain ⟨h1, h2, h3⟩ := ih (Nat.le_of_succ_le hk)
    have hstep : retryStepItem opts
        (retryItemAfter opts data t0 k).nextRetryTime
        (retryItemAfter opts data t0 k) =
        (some { retryItemAfter opts data t0 k with
                  retryCount :=
                    (retryItemAfter opts data t0 k).retryCount + 1
                  nextRetryTime :=
                    (retryItemAfter opts data t0 k).nextRetryTime +
                      opts.retryInterval *
                        2 ^ ((retryItemAfter opts data t0 k).retryCount +
                          1) },
          true) := by
      unfold retryStepItem
      rw [if_pos (le_refl _), if_pos (by rw [h2]; exact hklt)]
    simp only [retryItemAfter]
    rw [hstep]
    dsimp only
    refine ⟨h1, by rw [h2], ?_⟩
    rw [h2, h3]
    have hx : 0 < 2 ^ (k + 1) := Nat.pow_pos (by omega)
    rw [pow_succ 2 (k + 1)]
    have harith : opts.retryInterval * (2 ^ (k + 1) - 1) +
        opts.retryInterval * 2 ^ (k + 1) =
        opts.retryInterval * (2 ^ (k + 1) * 2 - 1) := by
      rw [← Nat.mul_add]
      congr 1
      omega
    omega

/-- C5: the delay schedule of a retry record is exponential backoff —
the record created at `t0` is first eligible at `t0 + base`, and after
each failing resend the attempt count increments and the next-eligible
time moves by `base * 2 ^ attempt`, giving resend times `t0 + base *
(2 ^ k - 1)`; once the attempt count has reached the configured
maximum, the next eligible tick removes the record from the retry queue
without resending it. -/
theorem c5_retry_backoff_schedule :
    ∀ (opts : TransportOptions) (data : List ReportData) (t0 k : Nat)
      (st : TransportState),
      (k ≤ opts.retryCount →
        (retryItemAfter opts data t0 k).data = data ∧
        (retryItemAfter opts data t0 k).retryCount = k ∧
        (retryItemAfter opts data t0 k).nextRetryTime =
          t0 + opts.retryInterval * (2 ^ (k + 1) - 1)) ∧
      (k < opts.retryCount →
        retryStepItem opts
            (retryItemAfter opts data t0 k).nextRetryTime
            (retryItemAfter opts data t0 k) =
          (some (retryItemAfter opts data t0 (k + 1)), true)) ∧
      (st.retryQueue = [retryItemAfter opts data t0 opts.retryCount] →
        st.pendingRequests ≤ 3 →
        (processRetryQueue opts
            (retryItemAfter opts data t0 opts.retryCount).nextRetryTime
            st).retryQueue = [] ∧
        (processRetryQueue opts
            (retryItemAfter opts data t0 opts.retryCount).nextRetryTime
            st).sentBatches = st.sentBatches) := by
  intro opts data t0 k st
  refine ⟨retryItemAfter_spec opts data t0 k, ?_, ?_⟩
  · intro hk
    obtain ⟨h1, h2, h3⟩ := retryItemAfter_spec opts data t0 k
      (Nat.le_of_lt hk)
    have hstep : retryStepItem opts
        (retryItemAfter opts data t0 k).nextRetryTime
        (retryItemAfter opts data t0 k) =
        (some { retryItemAfter opts data t0 k with
                  retryCount :=
                    (retryItemAfter opts data t0 k).retryCount + 1
                  nextRetryTime :=
                    (retryItemAfter opts data t0 k).nextRetryTime +
                      opts.retryInterval *
                        2 ^ ((retryItemAfter opts data t0 k).retryCount +
                          1) },
          true) := by
      unfold retryStepItem
      rw [if_pos (le_refl _), if_pos (by rw [h2]; exact hk)]
    rw [hstep]
    simp only [retryItemAfter]
    rw [hstep]
  · intro hq hp
    have h2 := (retryItemAfter_spec opts data t0 opts.retryCount
      (le_refl _)).2.1
    have hstep : retryStepItem opts
        (retryItemAfter opts data t0 opts.retryCount).nextRetryTime
        (retryItemAfter opts data t0 opts.retryCount) =
        (none, false) := by
      unfold retryStepItem
      rw [if_pos (le_refl _), if_neg (by rw [h2]; omega)]
    have hres : processRetryQueue opts
        (retryItemAfter opts data t0 opts.retryCount).nextRetryTime st =
        { st with retryQueue := [] } := by
      unfold processRetryQueue
      rw [if_neg (by simp [hq]; omega)]
      rw [hq, List.foldl_cons, List.foldl_nil, hstep]
    rw [hres]
    exact ⟨rfl, rfl⟩

/-- C5 witness: with the default configuration (base 1000 ms, max 3),
after 2 failing resends the record's attempt count is 2 and its next
eligibility is at 1000 · (2³ − 1) = 7000 ms. -/
theorem c5_retry_backoff_schedule_witness :
    (retryItemAfter stdOpts demoBatch 0 2).retryCount = 2 ∧
    (retryItemAfter stdOpts demoBatch 0 2).nextRetryTime = 7000 := by
  have h := (c5_retry_backoff_schedule stdOpts demoBatch 0 2
      TransportState.initial).1 (by decide)
  exact ⟨h.2.1, h.2.2.trans (by decide)⟩

/-- C6 (code bug): after the only retry record's batch is resent
successfully, the record is not destroyed — `getQueueStatus` still
reports one retry record — and the already-delivered batch is resent
again at the next eligible retry tick. -/
theorem c6_retry_record_survives_success :
    getQueueStatus c6AfterSuccess = (0, 0, 0, 1, 0) ∧
    c6AfterSuccess.retryQueue =
      [{ data := demoBatch, retryCount := 1, nextRetryTime := 3000 }] ∧
    c6SecondTick.sentBatches.length = 3 := by
  exact ⟨rfl, rfl, rfl⟩

/-- C8 (code bug): a session whose Bernoulli sampling decision is
negative (rate 0) still forwards reported events to the delivery
engine: the decision gates only the installation of the global error
listeners, while `report` transmits a one-element high-priority batch
for an error event exactly as in a sampled session. -/
theorem c8_unsampled_session_still_reports :
    c8Monitor.errorHandlingInstalled = false ∧
    (Monitor.report c8Monitor demoEnv
        demoInput).transport.sentBatches.length = 1 := by
  constructor
  · decide
  · rfl

end ZdMonitor
